import Mathlib

/-!
Shallow embedding of the trivia API backend (`backend/flaskr/__init__.py`).

The Flask handlers are embedded as pure functions from a database state
(and the request data they read) to a response together with the database
state they leave behind.  `Resp.ok` models a JSON body with `success: true`;
`Resp.err c` models `abort(c)` being turned into the JSON error body with
HTTP status `c`; the status `500` models an unhandled Python exception
(Flask's generic internal-server-error page).

The ORM model class (`models.py`) and the SQL engine are not part of the
source tree; the row shapes, `format()`, and the `ILIKE` operator are
modelled from the spec, each marked `Modelled from the spec:` below.
-/

set_option linter.unusedVariables false

namespace Trivia

/-- A row of the `Question` table (spec §3: id, question text, answer text,
category stored as text referencing a Category id, difficulty integer). -/
structure Question where
  id : Nat
  question : String
  answer : String
  category : String
  difficulty : Int
deriving Repr, DecidableEq

/-- A row of the `Category` table (spec §3: id, type label). -/
structure Category where
  id : Nat
  type : String
deriving Repr, DecidableEq

/-- The data store: the two tables (spec §3). -/
structure DB where
  questions : List Question
  categories : List Category
deriving Repr, DecidableEq

/-- Modelled from the spec: the dict produced by `Question.format()`
(`models.py` is outside src/); spec §4.2 formats each question as
`{id, question, answer, difficulty, category}`. -/
structure FormattedQuestion where
  id : Nat
  question : String
  answer : String
  category : String
  difficulty : Int
deriving Repr, DecidableEq

/-- Modelled from the spec: `Question.format()` copies the row's five fields
into the response dict. -/
def Question.format (q : Question) : FormattedQuestion :=
  ⟨q.id, q.question, q.answer, q.category, q.difficulty⟩

/-- Modelled from the spec: the dict produced by `Category.format()`
(used at line 53 as `category.format()['id']` / `['type']`); spec §3 gives
a Category exactly the fields id and type. -/
def Category.format (c : Category) : Nat × String :=
  (c.id, c.type)

/-- Outcome of a handler: `ok` is a JSON body with `success: true`,
`err c` is the error body with HTTP status `c` (500 standing for an
unhandled Python exception). -/
inductive Resp (α : Type) where
  | ok : α → Resp α
  | err : Nat → Resp α
deriving Repr, DecidableEq

/-- `QUESTIONS_PER_PAGE = 10` (line 11). -/
def QUESTIONS_PER_PAGE : Nat := 10

/-- Clamp one Python slice index against a list of length `n`:
a negative index counts from the end and is clamped below at 0,
a non-negative index is clamped above at `n`. -/
def pySliceIdx (n : Nat) (i : Int) : Nat :=
  if i < 0 then (max (i + n) 0).toNat else min i.toNat n

/-- Python's `l[start:stop]` (step 1): the elements from the clamped start
index up to, excluding, the clamped stop index. -/
def pythonSlice (start stop : Int) (l : List α) : List α :=
  (l.take (pySliceIdx l.length stop)).drop (pySliceIdx l.length start)

/-- `paginate_questions` (lines 16-24): `page` is the already-parsed integer
query parameter (`request.args.get('page', 1, type=int)`); the selection is
formatted and then sliced with `questions[start:end]`. -/
def paginate_questions (page : Int) (selection : List Question) : List FormattedQuestion :=
  let start : Int := (page - 1) * QUESTIONS_PER_PAGE
  let stop : Int := start + QUESTIONS_PER_PAGE
  let questions := selection.map Question.format
  pythonSlice start stop questions

/-- `Question.query.order_by(Question.id)`: the table rows sorted by
ascending id (Mathlib's insertion sort, executable and structural). -/
def orderById (l : List Question) : List Question :=
  l.insertionSort (fun a b => a.id ≤ b.id)

/-- The dict comprehension of line 80:
`{ category.id : category.type for category in Category.query.all() }`,
as an association list in table order. -/
def categoriesMap (db : DB) : List (Nat × String) :=
  db.categories.map (fun c => (c.id, c.type))

/-- Response body of `GET /categories`. -/
structure CategoriesResponse where
  categories : List (Nat × String)
  total_categories : Nat
deriving Repr, DecidableEq

/-- `access_categories` (lines 51-62): build the id→type mapping from
`category.format()`, 404 when it is empty, else return it together with
`len(Category.query.all())`.  A read-only handler: the database comes back
unchanged. -/
def access_categories (db : DB) : Resp CategoriesResponse × DB :=
  let categories := db.categories.map (fun c => (c.format.1, c.format.2))
  if categories.length = 0 then (.err 404, db)
  else (.ok ⟨categories, db.categories.length⟩, db)

/-- Response body of `GET /questions`. -/
structure QuestionsResponse where
  questions : List FormattedQuestion
  total_questions : Nat
  categories : List (Nat × String)
  current_category : Option Nat
deriving Repr, DecidableEq

/-- `select_all_questions` (lines 75-91).  The selection is ordered by id,
paginated, and the category dict of line 80 is built; an empty page aborts
404 (line 82).  Line 89 then evaluates
`{category.id: category.type for category in categories}` where
`categories` is already the dict of line 80: iterating a dict yields its
integer keys, and `category.id` on an int raises `AttributeError`, an
unhandled exception (HTTP 500), whenever the dict is non-empty; only with
an empty Category table does line 89 produce `{}` and the success body. -/
def select_all_questions (db : DB) (page : Int) : Resp QuestionsResponse × DB :=
  let question_selection := orderById db.questions
  let current_questions := paginate_questions page question_selection
  let categories := categoriesMap db
  if current_questions.length = 0 then (.err 404, db)
  else if categories.length = 0 then
    (.ok ⟨current_questions, question_selection.length, [], none⟩, db)
  else (.err 500, db)

/-- Response body of `DELETE /questions/{id}`. -/
structure DeleteResponse where
  deleted : Nat
deriving Repr, DecidableEq

/-- Modelled from the spec: `Question.query.get(id)` — primary-key lookup
in the Question table (the ORM is outside src/). -/
def Question.queryGet (db : DB) (question_id : Nat) : Option Question :=
  db.questions.find? (fun q => q.id = question_id)

/-- Modelled from the spec: `question.delete()` permanently removes the row
with that id from the Question table (spec §4.3). -/
def DB.deleteQuestion (db : DB) (question_id : Nat) : DB :=
  { db with questions := db.questions.filter (fun q => q.id ≠ question_id) }

/-- The `try:` block of `question_deletion` (lines 102-115): look the row up,
`abort(404)` (an exception) when absent, else delete and return the body. -/
def question_deletion_try (db : DB) (question_id : Nat) :
    Except Nat (DeleteResponse × DB) :=
  match Question.queryGet db question_id with
  | none => .error 404
  | some _ => .ok (⟨question_id⟩, db.deleteQuestion question_id)

/-- `question_deletion` (lines 99-118).  The bare `except:` of line 117
catches every exception raised in the `try:` block — including the
`HTTPException` raised by the explicit `abort(404)` of line 106 — and
re-signals `abort(422)`. -/
def question_deletion (db : DB) (question_id : Nat) : Resp DeleteResponse × DB :=
  match question_deletion_try db question_id with
  | .ok (r, db') => (.ok r, db')
  | .error _ => (.err 422, db)

/-- The JSON body of `POST /questions`: the four fields, each possibly
absent; present values are stored as given (no bounds check on
`difficulty`, no existence check on `category`). -/
structure NewQuestionBody where
  question : Option String
  answer : Option String
  difficulty : Option Int
  category : Option String
deriving Repr, DecidableEq

/-- Modelled from the spec: the id the data store generates on insert
(spec §3: ids are unique and generated on insert) — one past the largest
id in the table. -/
def DB.freshId (db : DB) : Nat :=
  (db.questions.map Question.id).foldr max 0 + 1

/-- Response body of `POST /questions`. -/
structure CreateResponse where
  created : Nat
deriving Repr, DecidableEq

/-- `post_new_question` (lines 129-151): abort 422 unless all four keys are
in the body (line 133); otherwise construct the row and insert it
(persistence by the external store is modelled as always succeeding),
answering with the new row's id. -/
def post_new_question (db : DB) (body : NewQuestionBody) : Resp CreateResponse × DB :=
  if !(body.question.isSome && body.answer.isSome
        && body.difficulty.isSome && body.category.isSome) then
    (.err 422, db)
  else
    match body.question, body.answer, body.difficulty, body.category with
    | some q, some a, some d, some c =>
      let newQuestion : Question := ⟨db.freshId, q, a, c, d⟩
      (.ok ⟨newQuestion.id⟩, { db with questions := db.questions ++ [newQuestion] })
    | _, _, _, _ => (.err 422, db)

/-- Modelled from the spec: the SQL `LIKE` pattern matcher of the external
data store — `%` matches any (possibly empty) character sequence (i.e. the
rest of the pattern matches some suffix of the text), `_` matches exactly
one character, every other pattern character matches itself. -/
def likeMatch : List Char → List Char → Bool
  | [], t => t.isEmpty
  | c :: ps, t =>
    if c = '%' then t.tails.any (fun s => likeMatch ps s)
    else
      match t with
      | [] => false
      | d :: ts => (c = '_' || c = d) && likeMatch ps ts

/-- Modelled from the spec: `column.ilike(pattern)` — case-insensitive
`LIKE` (both sides lowered before matching, spec §4.5: "case-insensitive
substring match"). -/
def ilike (text pattern : String) : Bool :=
  likeMatch (pattern.data.map Char.toLower) (text.data.map Char.toLower)

/-- Response body of `POST /questions/search`. -/
structure SearchResponse where
  questions : List FormattedQuestion
  total_questions : Nat
  current_category : Option Nat
deriving Repr, DecidableEq

/-- `question_search` (lines 162-176): `body.get('searchTerm', None)`, then
`if search_term_item:` — `None` and the empty string are falsy and abort
404; a truthy term is interpolated verbatim into
`Question.question.ilike(f'%{search_term_item}%')`. -/
def question_search (db : DB) (searchTerm : Option String) : Resp SearchResponse × DB :=
  match searchTerm with
  | some t =>
    if t ≠ "" then
      let search_results := db.questions.filter (fun q => ilike q.question ("%" ++ t ++ "%"))
      (.ok ⟨search_results.map Question.format, search_results.length, none⟩, db)
    else (.err 404, db)
  | none => (.err 404, db)

/-- Response body of `GET /categories/{category_id}/questions`. -/
structure CategoryQuestionsResponse where
  questions : List FormattedQuestion
  total_questions : Nat
  current_category : Nat
deriving Repr, DecidableEq

/-- `retrieve_questions_by_category` (lines 184-198): filter the Question
table on `Question.category == str(category_id)` and answer with the
matches (the route's `<int:category_id>` converter admits non-negative
integers only).  The `except: abort(404)` guards a query that cannot raise
on its own, so the handler always succeeds. -/
def retrieve_questions_by_category (db : DB) (category_id : Nat) :
    Resp CategoryQuestionsResponse × DB :=
  let questions := db.questions.filter (fun q => q.category = toString category_id)
  (.ok ⟨questions.map Question.format, questions.length, category_id⟩, db)

/-- The `quiz_category` object of the `POST /quizzes` body: a `type` label
and the category `id` the frontend sends (compared against the text-typed
`category` column, so carried as a string here). -/
structure QuizCategory where
  type : String
  id : String
deriving Repr, DecidableEq

/-- The JSON body of `POST /quizzes`: the two keys, each possibly absent. -/
structure QuizBody where
  quiz_category : Option QuizCategory
  previous_questions : Option (List Nat)
deriving Repr, DecidableEq

/-- Response body of `POST /quizzes`. -/
structure QuizResponse where
  question : Option FormattedQuestion
deriving Repr, DecidableEq

/-- `play_quizzy` (lines 210-238).  Missing keys abort 422 (routed through
the same bare `except:`, so still 422); `type == 'click'` selects every
question not in `previous_questions`, otherwise the `filter_by` on the
category column is applied first.  `random.randrange(0, len)` yields some
index below the length; it is modelled by an arbitrary natural `rand`
reduced modulo the length, which ranges over exactly the same indices. -/
def play_quizzy (db : DB) (body : QuizBody) (rand : Nat) : Resp QuizResponse × DB :=
  match body.quiz_category, body.previous_questions with
  | some category, some former_questions =>
    let ready_questions :=
      if category.type = "click" then
        db.questions.filter (fun q => !former_questions.contains q.id)
      else
        (db.questions.filter (fun q => q.category = category.id)).filter
          (fun q => !former_questions.contains q.id)
    let latest_question :=
      if h : 0 < ready_questions.length then
        some ((ready_questions.get ⟨rand % ready_questions.length,
          Nat.mod_lt _ h⟩).format)
      else none
    (.ok ⟨latest_question⟩, db)
  | _, _ => (.err 422, db)

/-- The spec's wording for the search behaviour (§4.5): a "case-insensitive
substring match against the `question` text field" — the term, lowered, is
an infix of the lowered text.  This is the specification-side predicate the
`ilike` query is compared against. -/
def containsCI (text term : String) : Prop :=
  (term.data.map Char.toLower) <:+: (text.data.map Char.toLower)

instance (text term : String) : Decidable (containsCI text term) :=
  List.decidableInfix _ _

/-! ### Lemmas about the `LIKE` matcher -/

lemma likeMatch_percent_iff (ps t : List Char) :
    likeMatch ('%' :: ps) t = true ↔ ∃ s, s <:+ t ∧ likeMatch ps s = true := by
  simp [likeMatch, List.any_eq_true, List.mem_tails]

lemma likeMatch_lit (c : Char) (ps : List Char) (hc : c ≠ '%') (t : List Char) :
    likeMatch (c :: ps) t =
      match t with
      | [] => false
      | d :: ts => (decide (c = '_') || decide (c = d)) && likeMatch ps ts := by
  simp [likeMatch, hc]

/-- A pattern made of ordinary characters followed by a final `%` matches
exactly the texts whose prefix is that character run. -/
lemma likeMatch_plain_percent (p : List Char) (hp : ∀ c ∈ p, c ≠ '%' ∧ c ≠ '_')
    (t : List Char) : (likeMatch (p ++ ['%']) t = true) ↔ p <+: t := by
  induction p generalizing t with
  | nil =>
    simp only [List.nil_append, List.nil_prefix, iff_true]
    rw [likeMatch_percent_iff]
    exact ⟨[], List.nil_suffix, rfl⟩
  | cons c p ih =>
    have hc := hp c (List.mem_cons_self c p)
    rw [List.cons_append, likeMatch_lit c _ hc.1]
    cases t with
    | nil => simp
    | cons d ts =>
      have hp' : ∀ x ∈ p, x ≠ '%' ∧ x ≠ '_' := fun x hx => hp x (List.mem_cons_of_mem c hx)
      simp [hc.2, ih hp', List.cons_prefix_cons]

/-- The pattern `%p%` for a metacharacter-free `p` matches exactly the
texts containing `p` as an infix. -/
lemma likeMatch_infix_iff (p : List Char) (hp : ∀ c ∈ p, c ≠ '%' ∧ c ≠ '_')
    (t : List Char) : (likeMatch ('%' :: (p ++ ['%'])) t = true) ↔ p <:+: t := by
  rw [likeMatch_percent_iff, List.infix_iff_prefix_suffix]
  constructor
  · rintro ⟨s, hs, hm⟩
    exact ⟨s, (likeMatch_plain_percent p hp s).mp hm, hs⟩
  · rintro ⟨s, hps, hs⟩
    exact ⟨s, hs, (likeMatch_plain_percent p hp s).mpr hps⟩

/-- A non-empty all-`%` pattern matches every text. -/
lemma likeMatch_replicate_percent (n : Nat) (t : List Char) :
    likeMatch (List.replicate (n + 1) '%') t = true := by
  induction n generalizing t with
  | zero =>
    rw [List.replicate_one, show ['%'] = '%' :: ([] : List Char) from rfl,
      likeMatch_percent_iff]
    exact ⟨[], List.nil_suffix, rfl⟩
  | succ n ih =>
    rw [List.replicate_succ, likeMatch_percent_iff]
    exact ⟨t, List.suffix_refl t, ih t⟩

lemma likeMatch_underscore_aux (s : List Char) :
    likeMatch ('_' :: ['%']) s = !s.isEmpty := by
  rw [likeMatch_lit '_' ['%'] (by decide)]
  cases s with
  | nil => rfl
  | cons d ts =>
    simp only [List.isEmpty_cons, Bool.not_false, Bool.true_and,
      decide_eq_true_eq, Bool.or_eq_true, true_or, if_pos rfl]
    simpa using likeMatch_replicate_percent 0 ts

/-- The pattern `%_%` matches exactly the non-empty texts: `_` stands for
any one character, not only a literal underscore. -/
lemma likeMatch_any_single (t : List Char) :
    likeMatch ('%' :: '_' :: ['%']) t = !t.isEmpty := by
  rw [show ('%' :: '_' :: ['%']) = '%' :: ('_' :: ['%']) from rfl]
  cases t with
  | nil => decide
  | cons d ts =>
    simp only [List.isEmpty_cons, Bool.not_false]
    rw [likeMatch_percent_iff]
    exact ⟨d :: ts, List.suffix_refl _, by rw [likeMatch_underscore_aux]; rfl⟩

/-- `Char.toLower` never produces a character whose code is outside the
lower-case-letter range unless it was that character already. -/
lemma toLower_ne_of_out (c d : Char) (hd : d.toNat < 97 ∨ 122 < d.toNat) (h : c ≠ d) :
    Char.toLower c ≠ d := by
  unfold Char.toLower
  simp only []
  split
  next hcond =>
    intro hEq
    have hv : (Char.toNat c + 32).isValidChar := Or.inl (by omega)
    have hval : (Char.ofNat (Char.toNat c + 32)).toNat = Char.toNat c + 32 := by
      rw [Char.ofNat, dif_pos hv]
      simp [Char.ofNatAux, Char.toNat, UInt32.toNat]
    rw [hEq] at hval
    omega
  next => exact h

lemma search_pattern_data (t : String) :
    ("%" ++ t ++ "%").data.map Char.toLower =
      '%' :: (t.data.map Char.toLower ++ ['%']) := by
  have h1 : ("%" ++ t ++ "%").data = '%' :: t.data ++ ['%'] := by
    rw [String.data_append, String.data_append]
    rfl
  rw [h1]
  simp [show Char.toLower '%' = '%' from rfl]

/-- For a search term free of `LIKE` metacharacters, the `ilike` query of
`question_search` agrees with the spec's case-insensitive substring
containment. -/
lemma ilike_search_iff (text t : String) (hm : ∀ c ∈ t.data, c ≠ '%' ∧ c ≠ '_') :
    ilike text ("%" ++ t ++ "%") = decide (containsCI text t) := by
  have hm' : ∀ c ∈ t.data.map Char.toLower, c ≠ '%' ∧ c ≠ '_' := by
    intro c hc
    rcases List.mem_map.mp hc with ⟨c0, hc0, rfl⟩
    exact ⟨toLower_ne_of_out c0 '%' (Or.inl (by decide)) (hm c0 hc0).1,
           toLower_ne_of_out c0 '_' (Or.inl (by decide)) (hm c0 hc0).2⟩
  rw [ilike, search_pattern_data, Bool.eq_iff_iff, decide_eq_true_eq]
  exact likeMatch_infix_iff _ hm' (text.data.map Char.toLower)

/-! ### Lemmas about the pagination helper -/

/-- The slice `questions[start:end]` of `paginate_questions` is empty for
page 0, for a negative page whose Python negative indices reach at or
before the front of the list, and for a positive page whose start offset
is at or past the end. -/
lemma paginate_questions_eq_nil (page : Int) (sel : List Question)
    (h : page = 0 ∨ (page < 0 ∧ (sel.length : Int) + 10 * page ≤ 0) ∨
         (1 ≤ page ∧ (sel.length : Int) ≤ (page - 1) * 10)) :
    paginate_questions page sel = [] := by
  unfold paginate_questions pythonSlice pySliceIdx QUESTIONS_PER_PAGE
  simp only [List.length_map]
  push_cast
  rcases h with rfl | ⟨hneg, hle⟩ | ⟨hpos, hle⟩
  · norm_num
  · rw [if_pos (by omega : (page - 1) * 10 + 10 < 0)]
    have h0 : (max ((page - 1) * 10 + 10 + sel.length) 0).toNat = 0 := by omega
    rw [h0]
    simp
  · rw [if_neg (by omega : ¬ ((page - 1) * 10 + 10 < 0))]
    apply List.drop_eq_nil_of_le
    simp only [List.length_take, List.length_map]
    rw [if_neg (by omega : ¬ ((page - 1) * 10 < 0))]
    omega

instance : IsTotal Question (fun a b => a.id ≤ b.id) :=
  ⟨fun a b => Nat.le_total a.id b.id⟩

instance : IsTrans Question (fun a b => a.id ≤ b.id) :=
  ⟨fun _ _ _ => Nat.le_trans⟩

lemma orderById_perm (l : List Question) : List.Perm (orderById l) l :=
  List.perm_insertionSort _ l

lemma orderById_sorted (l : List Question) :
    List.Sorted (fun a b => a.id ≤ b.id) (orderById l) :=
  List.sorted_insertionSort _ l

/-- On a valid page (`1 ≤ P`, start offset inside the list) the slice is
the drop/take window of the formatted selection. -/
lemma paginate_questions_valid (sel : List Question) (P : Nat) (h1 : 1 ≤ P)
    (h2 : (P - 1) * 10 < sel.length) :
    paginate_questions (P : Int) sel =
      ((sel.map Question.format).take (min (P * 10) sel.length)).drop ((P - 1) * 10) := by
  unfold paginate_questions pythonSlice pySliceIdx QUESTIONS_PER_PAGE
  simp only [List.length_map]
  push_cast
  rw [if_neg (by omega : ¬ (((P : Int) - 1) * 10 < 0)),
    if_neg (by omega : ¬ (((P : Int) - 1) * 10 + 10 < 0))]
  have e1 : (((P : Int) - 1) * 10).toNat ⊓ sel.length = (P - 1) * 10 := by omega
  have e2 : (((P : Int) - 1) * 10 + 10).toNat ⊓ sel.length = P * 10 ⊓ sel.length := by omega
  rw [e1, e2]

/-! ### Concrete database fixtures -/

/-- A minimal question row used in concrete fixtures. -/
def mkQ (i : Nat) : Question := ⟨i, "q", "a", "1", 1⟩

/-- Twenty questions, no categories. -/
def dbTwenty : DB := ⟨(List.range 20).map (fun i => mkQ (i + 1)), []⟩

/-- Five questions, no categories. -/
def dbFive : DB := ⟨(List.range 5).map (fun i => mkQ (i + 1)), []⟩

/-- Three questions listed out of id order, no categories. -/
def dbThree : DB := ⟨[mkQ 3, mkQ 1, mkQ 2], []⟩

/-- One question and one category. -/
def dbOne : DB := ⟨[⟨1, "Q1", "A1", "1", 1⟩], [⟨1, "Science"⟩]⟩

/-! ### Claim theorems -/

/-- C1: the claim says a missing id yields 404.  In the code the explicit
`abort(404)` of line 106 is raised inside the `try:` block and the bare
`except:` of line 117 catches the resulting `HTTPException` and re-raises
`abort(422)`: at the concrete missing id 1000 the inner lookup signals the
not-found case, yet the handler's response is status 422, never 404. -/
theorem C1_delete_missing_id_returns_422 :
    question_deletion_try dbOne 1000 = .error 404 ∧
    question_deletion dbOne 1000 = (.err 422, dbOne) :=
  ⟨rfl, rfl⟩

/-- C2: the claim says GET /questions succeeds with the id→type categories
mapping.  With one question on page 1 and one category the handler instead
raises `AttributeError` (HTTP 500): line 89 re-runs a dict comprehension
over the dict built at line 80, so each iterated element is an integer key
and `category.id` fails. -/
theorem C2_questions_categories_bug_500 :
    (select_all_questions dbOne 1).1 = .err 500 ∧ categoriesMap dbOne ≠ [] := by
  exact ⟨rfl, by decide⟩

/-- C3 (amended): GET /questions?page=P returns 404 for P = 0, for
negative P when the question count is at most `10 * |P|`, and for P ≥ 1
whose start offset `(P-1)*10` is at or past the end of the list. -/
theorem C3_out_of_range_page_404 (db : DB) (page : Int)
    (h : page = 0 ∨ (page < 0 ∧ (db.questions.length : Int) + 10 * page ≤ 0) ∨
         (1 ≤ page ∧ (db.questions.length : Int) ≤ (page - 1) * 10)) :
    (select_all_questions db page).1 = .err 404 := by
  have hlen : (orderById db.questions).length = db.questions.length :=
    (orderById_perm db.questions).length_eq
  have hnil : paginate_questions page (orderById db.questions) = [] := by
    apply paginate_questions_eq_nil
    rw [hlen]
    exact h
  simp [select_all_questions, hnil]

/-- C3 counterexample: page -1 on a twenty-question table is out of range
by the claim (negative), yet Python's negative-slice semantics make
`questions[-20:-10]` the first ten questions, and the endpoint answers
with a success body, not 404. -/
theorem C3_negative_page_counterexample :
    (select_all_questions dbTwenty (-1)).1 =
      .ok ⟨(List.range 10).map (fun i => (mkQ (i + 1)).format), 20, [], none⟩ ∧
    (select_all_questions dbTwenty (-1)).1 ≠ .err 404 := by
  exact ⟨rfl, by decide⟩

/-- C3 witness: page 999 on the five-question table is past the last page
and yields 404. -/
theorem C3_out_of_range_page_404_witness :
    (select_all_questions dbFive 999).1 = .err 404 :=
  C3_out_of_range_page_404 dbFive 999 (by right; right; exact ⟨by decide, by decide⟩)

/-- C7: for every valid page P (1 ≤ P ≤ ceil(total/10)) the pagination
helper applied to the questions ordered by ascending id yields exactly the
formatted questions at offsets (P-1)*10 through min(P*10, total)-1, still
in ascending id order, where the ordered selection is a permutation of the
whole table. -/
theorem C7_valid_page_slice (db : DB) (P : Nat) (h1 : 1 ≤ P)
    (h2 : P ≤ (db.questions.length + 9) / 10) :
    (paginate_questions (P : Int) (orderById db.questions)).length
        = min (P * 10) db.questions.length - (P - 1) * 10 ∧
    (∀ j, j < (paginate_questions (P : Int) (orderById db.questions)).length →
        (paginate_questions (P : Int) (orderById db.questions))[j]? =
          ((orderById db.questions).map Question.format)[(P - 1) * 10 + j]?) ∧
    List.Pairwise (fun a b : FormattedQuestion => a.id ≤ b.id)
        (paginate_questions (P : Int) (orderById db.questions)) ∧
    List.Perm (orderById db.questions) db.questions := by
  have hlen : (orderById db.questions).length = db.questions.length :=
    (orderById_perm _).length_eq
  have h2' : (P - 1) * 10 < (orderById db.questions).length := by
    rw [hlen]
    omega
  have hv := paginate_questions_valid (orderById db.questions) P h1 h2'
  refine ⟨?_, ?_, ?_, orderById_perm _⟩
  · rw [hv]
    simp only [List.length_drop, List.length_take, List.length_map]
    omega
  · intro j hj
    rw [hv] at hj ⊢
    rw [List.getElem?_drop]
    apply List.getElem?_take_of_lt
    simp only [List.length_drop, List.length_take, List.length_map] at hj
    omega
  · rw [hv]
    have hs : List.Pairwise (fun a b : FormattedQuestion => a.id ≤ b.id)
        ((orderById db.questions).map Question.format) :=
      List.Pairwise.map Question.format (fun a b h => h) (orderById_sorted db.questions)
    exact hs.sublist ((List.drop_sublist _ _).trans (List.take_sublist _ _))

/-- C7 witness: page 1 of the three-question table. -/
theorem C7_valid_page_slice_witness :
    (paginate_questions ((1 : Nat) : Int) (orderById dbThree.questions)).length
        = min (1 * 10) dbThree.questions.length - (1 - 1) * 10 ∧
    (∀ j, j < (paginate_questions ((1 : Nat) : Int) (orderById dbThree.questions)).length →
        (paginate_questions ((1 : Nat) : Int) (orderById dbThree.questions))[j]? =
          ((orderById dbThree.questions).map Question.format)[(1 - 1) * 10 + j]?) ∧
    List.Pairwise (fun a b : FormattedQuestion => a.id ≤ b.id)
        (paginate_questions ((1 : Nat) : Int) (orderById dbThree.questions)) ∧
    List.Perm (orderById dbThree.questions) dbThree.questions :=
  C7_valid_page_slice dbThree 1 (by decide) (by decide)

lemma map_isEmpty {α β : Type} (f : α → β) (l : List α) :
    (l.map f).isEmpty = l.isEmpty := by
  cases l <;> rfl

def dbAbc : DB := ⟨[⟨1, "abc", "a", "1", 1⟩], []⟩

def dbTitle : DB := ⟨[⟨1, "What is the Title?", "a", "1", 1⟩, ⟨2, "abc", "a", "1", 1⟩], []⟩

/-- C5 (amended): for a present, non-empty search term containing no LIKE
metacharacter (`%` or `_`), POST /questions/search returns exactly the
questions whose question text contains the term case-insensitively, with
total_questions the number of matches; an empty or absent term yields
404. -/
theorem C5_search_substring (db : DB) (t : String) (ht : t ≠ "")
    (hm : ∀ c ∈ t.data, c ≠ '%' ∧ c ≠ '_') :
    (question_search db (some t)).1 =
      .ok ⟨(db.questions.filter (fun q => decide (containsCI q.question t))).map Question.format,
           (db.questions.filter (fun q => decide (containsCI q.question t))).length, none⟩ ∧
    (question_search db (some "")).1 = .err 404 ∧
    (question_search db none).1 = .err 404 := by
  refine ⟨?_, rfl, rfl⟩
  have hfil : db.questions.filter (fun q => ilike q.question ("%" ++ t ++ "%")) =
      db.questions.filter (fun q => decide (containsCI q.question t)) := by
    apply List.filter_congr
    intro q _
    exact ilike_search_iff q.question t hm
  simp [question_search, ht, hfil]

/-- C5 counterexample: with the single question "abc" in the table, the
search term "%" is interpolated into the pattern `%%%` and matches the
question, although "abc" does not contain "%" as a substring — the
response is not the case-insensitive-substring match set the claim
describes (which is empty here). -/
theorem C5_metachar_counterexample :
    (question_search dbAbc (some "%")).1 =
      .ok ⟨[Question.format ⟨1, "abc", "a", "1", 1⟩], 1, none⟩ ∧
    dbAbc.questions.filter (fun q => decide (containsCI q.question "%")) = [] := by
  exact ⟨rfl, by decide⟩

/-- C5 witness: the term "title" (no metacharacters) on a two-question
table. -/
theorem C5_search_substring_witness :
    (question_search dbTitle (some "title")).1 =
      .ok ⟨(dbTitle.questions.filter
              (fun q => decide (containsCI q.question "title"))).map Question.format,
           (dbTitle.questions.filter
              (fun q => decide (containsCI q.question "title"))).length, none⟩ ∧
    (question_search dbTitle (some "")).1 = .err 404 ∧
    (question_search dbTitle none).1 = .err 404 :=
  C5_search_substring dbTitle "title" (by decide) (by decide)

/-- A truthy search term takes the ilike-filter branch of
`question_search`. -/
lemma question_search_some (db : DB) (t : String) (ht : t ≠ "") :
    (question_search db (some t)).1 =
      .ok ⟨(db.questions.filter
              (fun q => ilike q.question ("%" ++ t ++ "%"))).map Question.format,
           (db.questions.filter
              (fun q => ilike q.question ("%" ++ t ++ "%"))).length, none⟩ := by
  simp [question_search, ht]

/-- C9: the search term is interpolated verbatim into the ILIKE pattern,
so LIKE metacharacters act as wildcards: searchTerm "%" (pattern `%%%`)
returns every question of a non-empty table, and searchTerm "_" (pattern
`%_%`) returns every question with at least one character in its text —
any single character, not only a literal underscore. -/
theorem C9_like_metacharacters (db : DB) :
    (db.questions ≠ [] →
      (question_search db (some "%")).1 =
        .ok ⟨db.questions.map Question.format, db.questions.length, none⟩) ∧
    (question_search db (some "_")).1 =
      .ok ⟨(db.questions.filter (fun q => !q.question.data.isEmpty)).map Question.format,
           (db.questions.filter (fun q => !q.question.data.isEmpty)).length, none⟩ := by
  constructor
  · intro hne
    have hfil : db.questions.filter (fun q => ilike q.question ("%" ++ "%" ++ "%")) =
        db.questions :=
      List.filter_eq_self.mpr (fun q _ => by
        rw [ilike, show ("%" ++ "%" ++ "%").data.map Char.toLower
              = List.replicate (2 + 1) '%' by decide]
        exact likeMatch_replicate_percent 2 _)
    rw [question_search_some db "%" (by decide), hfil]
  · have hfil : db.questions.filter (fun q => ilike q.question ("%" ++ "_" ++ "%")) =
        db.questions.filter (fun q => !q.question.data.isEmpty) :=
      List.filter_congr (fun q _ => by
        rw [ilike, show ("%" ++ "_" ++ "%").data.map Char.toLower
              = '%' :: '_' :: ['%'] by decide, likeMatch_any_single, map_isEmpty])
    rw [question_search_some db "_" (by decide), hfil]

def dbAb : DB := ⟨[⟨1, "ab", "a", "1", 1⟩], []⟩

/-- C9 witness: a table whose only question text is "ab" — no underscore,
yet matched by searchTerm "_". -/
theorem C9_like_metacharacters_witness :
    ((dbAb.questions ≠ [] →
      (question_search dbAb (some "%")).1 =
        .ok ⟨dbAb.questions.map Question.format, dbAb.questions.length, none⟩)) ∧
    (question_search dbAb (some "_")).1 =
      .ok ⟨(dbAb.questions.filter (fun q => !q.question.data.isEmpty)).map Question.format,
           (dbAb.questions.filter (fun q => !q.question.data.isEmpty)).length, none⟩ :=
  C9_like_metacharacters dbAb

/-- C6: GET /categories/{category_id}/questions always succeeds and
returns exactly the questions whose category field equals the string form
of category_id, with total_questions that count and current_category the
requested id; when nothing matches (unknown category included) the
questions list is empty but the response is still a success. -/
theorem C6_questions_by_category (db : DB) (cid : Nat) :
    ∃ resp, (retrieve_questions_by_category db cid).1 = .ok resp ∧
      resp.questions =
        (db.questions.filter (fun q => q.category = toString cid)).map Question.format ∧
      (∀ fq, fq ∈ resp.questions ↔
        ∃ q, q ∈ db.questions ∧ q.category = toString cid ∧ fq = q.format) ∧
      resp.total_questions =
        (db.questions.filter (fun q => q.category = toString cid)).length ∧
      resp.current_category = cid ∧
      ((∀ q ∈ db.questions, q.category ≠ toString cid) → resp.questions = []) := by
  refine ⟨_, rfl, rfl, ?_, rfl, rfl, ?_⟩
  · intro fq
    simp only [List.mem_map, List.mem_filter]
    constructor
    · rintro ⟨q, ⟨hq, hcat⟩, rfl⟩
      exact ⟨q, hq, by simpa using hcat, rfl⟩
    · rintro ⟨q, hq, hcat, rfl⟩
      exact ⟨q, ⟨hq, by simpa using hcat⟩, rfl⟩
  · intro hnone
    have : db.questions.filter (fun q => q.category = toString cid) = [] := by
      rw [List.filter_eq_nil_iff]
      intro q hq
      simpa using hnone q hq
    simp [this]

/-- C8: POST /questions returns 422 whenever one of the four fields is
absent, and with all four present (any values — no bounds or type check)
persists the row and returns success with the freshly generated id. -/
theorem C8_create_question (db : DB) (body : NewQuestionBody) :
    ((body.question = none ∨ body.answer = none ∨ body.difficulty = none ∨
        body.category = none) → post_new_question db body = (.err 422, db)) ∧
    (∀ q a d c, body = ⟨some q, some a, some d, some c⟩ →
      post_new_question db body =
        (.ok ⟨db.freshId⟩,
         { db with questions := db.questions ++ [⟨db.freshId, q, a, c, d⟩] })) := by
  obtain ⟨bq, ba, bd, bc⟩ := body
  constructor
  · rintro (h | h | h | h) <;> simp only at h <;> subst h <;>
      simp [post_new_question]
  · rintro q a d c hEq
    cases hEq
    rfl

def dbC8 : DB := ⟨[⟨1, "Q1", "A1", "1", 1⟩], []⟩

/-- C8 witness: a body missing `question` is rejected with 422; a complete
body is created with the fresh id. -/
theorem C8_create_question_witness :
    post_new_question dbC8 ⟨none, some "A", some 1, some "1"⟩ = (.err 422, dbC8) ∧
    post_new_question dbC8 ⟨some "Q", some "A", some 1, some "1"⟩ =
      (.ok ⟨dbC8.freshId⟩,
       { dbC8 with questions := dbC8.questions ++ [⟨dbC8.freshId, "Q", "A", "1", 1⟩] }) :=
  ⟨(C8_create_question dbC8 _).1 (Or.inl rfl),
   (C8_create_question dbC8 _).2 "Q" "A" 1 "1" rfl⟩

/-- C4: when both body keys are present, any non-null question returned by
POST /quizzes comes from the table, its id is not in previous_questions,
and unless quiz_category.type is the sentinel "click" its category equals
quiz_category.id; when the eligible set is empty the endpoint returns
success with question null, not an error. -/
theorem C4_quiz_selection (db : DB) (body : QuizBody) (rand : Nat)
    (cat : QuizCategory) (prev : List Nat)
    (hc : body.quiz_category = some cat) (hp : body.previous_questions = some prev) :
    (∀ fq, (play_quizzy db body rand).1 = .ok ⟨some fq⟩ →
      ∃ q, q ∈ db.questions ∧ fq = q.format ∧ q.id ∉ prev ∧
        (cat.type ≠ "click" → q.category = cat.id)) ∧
    ((if cat.type = "click" then
        db.questions.filter (fun q => !prev.contains q.id)
      else
        (db.questions.filter (fun q => q.category = cat.id)).filter
          (fun q => !prev.contains q.id)) = [] →
      (play_quizzy db body rand).1 = .ok ⟨none⟩) := by
  obtain ⟨bq, bp⟩ := body
  simp only at hc hp
  subst hc
  subst hp
  set R := if cat.type = "click" then
      db.questions.filter (fun q => !prev.contains q.id)
    else
      (db.questions.filter (fun q => q.category = cat.id)).filter
        (fun q => !prev.contains q.id) with hR
  have hplay : (play_quizzy db ⟨some cat, some prev⟩ rand).1 =
      .ok ⟨if h : 0 < R.length then
             some ((R.get ⟨rand % R.length, Nat.mod_lt _ h⟩).format)
           else none⟩ := rfl
  have hmem : ∀ q, q ∈ R → q ∈ db.questions ∧ q.id ∉ prev ∧
      (cat.type ≠ "click" → q.category = cat.id) := by
    intro q hq
    rw [hR] at hq
    by_cases hclick : cat.type = "click"
    · rw [if_pos hclick] at hq
      obtain ⟨hdb, hpred⟩ := List.mem_filter.mp hq
      refine ⟨hdb, ?_, fun hnc => absurd hclick hnc⟩
      simpa using hpred
    · rw [if_neg hclick] at hq
      obtain ⟨hq1, hpred1⟩ := List.mem_filter.mp hq
      obtain ⟨hdb, hpred2⟩ := List.mem_filter.mp hq1
      refine ⟨hdb, by simpa using hpred1, fun _ => by simpa using hpred2⟩
  constructor
  · intro fq hok
    rw [hplay] at hok
    by_cases h : 0 < R.length
    · rw [dif_pos h] at hok
      simp only [Resp.ok.injEq, QuizResponse.mk.injEq, Option.some.injEq] at hok
      obtain ⟨hdb, hnotin, hcat⟩ := hmem _ (R.get_mem _ _)
      exact ⟨R.get ⟨rand % R.length, Nat.mod_lt _ h⟩, hdb, hok.symm, hnotin, hcat⟩
    · rw [dif_neg h] at hok
      simp at hok
  · intro hnil
    rw [hplay, dif_neg]
    rw [hnil]
    simp
/-- C4 witness: category "1" with the only question already asked — the
eligible set is empty and the response is success with question null. -/
theorem C4_quiz_selection_witness :
    (∀ fq, (play_quizzy dbOne ⟨some ⟨"Science", "1"⟩, some [1]⟩ 0).1 = .ok ⟨some fq⟩ →
      ∃ q, q ∈ dbOne.questions ∧ fq = q.format ∧ q.id ∉ [1] ∧
        ((QuizCategory.mk "Science" "1").type ≠ "click" →
          q.category = (QuizCategory.mk "Science" "1").id)) ∧
    ((if (QuizCategory.mk "Science" "1").type = "click" then
        dbOne.questions.filter (fun q => !(([1] : List Nat).contains q.id))
      else
        (dbOne.questions.filter
            (fun q => q.category = (QuizCategory.mk "Science" "1").id)).filter
          (fun q => !(([1] : List Nat).contains q.id))) = [] →
      (play_quizzy dbOne ⟨some ⟨"Science", "1"⟩, some [1]⟩ 0).1 = .ok ⟨none⟩) :=
  C4_quiz_selection dbOne ⟨some ⟨"Science", "1"⟩, some [1]⟩ 0 ⟨"Science", "1"⟩ [1] rfl rfl

/-- C10: the five read/selection handlers return the database unchanged
for every input, while deletion and creation each have inputs where they
do change it. -/
theorem C10_read_endpoints_pure (db : DB) (page : Int) (term : Option String)
    (cid : Nat) (body : QuizBody) (rand : Nat) :
    (access_categories db).2 = db ∧
    (select_all_questions db page).2 = db ∧
    (question_search db term).2 = db ∧
    (retrieve_questions_by_category db cid).2 = db ∧
    (play_quizzy db body rand).2 = db ∧
    (∃ dbW i, (question_deletion dbW i).2 ≠ dbW) ∧
    (∃ dbW b, (post_new_question dbW b).2 ≠ dbW) := by
  refine ⟨?_, ?_, ?_, rfl, ?_, ⟨dbOne, 1, by decide⟩,
    ⟨dbOne, ⟨some "Q", some "A", some 1, some "1"⟩, by decide⟩⟩
  · unfold access_categories
    dsimp only
    split <;> rfl
  · unfold select_all_questions
    dsimp only
    split
    · rfl
    · split <;> rfl
  · cases term with
    | none => rfl
    | some t =>
      unfold question_search
      split
      · split <;> rfl
      · rfl
  · obtain ⟨bq, bp⟩ := body
    cases bq <;> cases bp <;> rfl
end Trivia
